import Mathlib

/-!
# Verification of the node-side volume lifecycle core of an iSCSI CSI driver

Shallow embedding of the node plugin's publish/unpublish handlers
(`NodePublishVolume`, `NodeUnpublishVolume`), the readiness probers
(`WaitForVolumeToBeReady`, `WaitForVolumeToBeReachable`), the mount
supervisor (`MonitorMounts`), and the repair worker (`RemountVolume`).

External collaborators (the iSCSI client, the metadata-store CR
operations, `chmod`, TCP dials, the volume-status oracle) are modelled as
environment records holding the outcome each external call would produce;
the embedded functions consume those outcomes exactly where the Go code
makes the corresponding call, and additionally record each external call
in an event trace so that "did not invoke the iSCSI client" style
properties are expressible.
-/

/-! ## Constants (from `utils`, part_000 lines 25-34) -/

/-- Go: `VolumeWaitTimeout = 2` — seconds between readiness probes. -/
def VolumeWaitTimeout : Nat := 2

/-- Go: `VolumeWaitRetryCount = 6` — the retry bound of the probers. -/
def VolumeWaitRetryCount : Nat := 6

/-- Go: `MonitorMountRetryTimeout = 5` — seconds between supervisor ticks. -/
def MonitorMountRetryTimeout : Nat := 5

/-! ## Data model -/

/-- `apis.CSIVolume`'s fields used by the node code: the flattened
`Spec.Volume` record plus `Spec.ISCSI`. -/
structure CSIVolume where
  name : String
  fsType : String
  capacity : String
  accessModes : List String
  mountPath : String
  readOnly : Bool
  mountOptions : List String
  iqn : String
  lun : String
  iscsiInterface : String
  targetPortal : String
  devicePath : String
deriving DecidableEq, Repr

/-- The fields of a persistent-volume record that `GetVolumeDetails`
reads (`pv.Spec.Capacity`, `pv.Spec.AccessModes`, `pv.Spec.CSI`). -/
structure PVDetails where
  fsType : String
  capacity : String
  accessModes : List String
  iqn : String
  lun : String
  iscsiInterface : String
  targetPortal : String
deriving DecidableEq, Repr

/-- `mount.MountPoint` as consumed by the supervisor: path, device and
mount options. -/
structure MountPoint where
  device : String
  path : String
  opts : List String
deriving DecidableEq, Repr

/-! ## The volume registry

Go: `Volumes map[string]*apis.CSIVolume`, guarded by `VolumesListLock`.
Modelled as an association list with Go-map semantics: `regGet` finds the
entry, `regPut` replaces-or-appends, `regDel` removes the key. -/

abbrev Registry := List (String × CSIVolume)

/-- Go map lookup `Volumes[volumeID]`. -/
def regGet : Registry → String → Option CSIVolume
  | [], _ => none
  | (k, v) :: rest, key => if k = key then some v else regGet rest key

/-- Go map assignment `Volumes[volumeID] = vol`. -/
def regPut : Registry → String → CSIVolume → Registry
  | [], key, vol => [(key, vol)]
  | (k, v) :: rest, key, vol =>
      if k = key then (key, vol) :: rest else (k, v) :: regPut rest key vol

/-- Go map deletion `delete(Volumes, volumeID)`. -/
def regDel (r : Registry) (key : String) : Registry :=
  r.filter (fun kv => kv.1 ≠ key)

/-- The process-wide mutable globals of the node plugin: the volume
registry and the repair set (`ReqMountList map[string]bool`). -/
structure DriverState where
  volumes : Registry
  reqMountList : List String
deriving DecidableEq, Repr

/-! ## Readiness probers (part_000 lines 131-187)

The TCP dial and the status query are external; they are modelled as
oracles indexed by the attempt number.  The Go `goto`/`for` retry loops
are restated as structural recursion on the remaining retry budget
(spec section 9 sanctions exactly this restatement). -/

/-- The error message of `WaitForVolumeToBeReachable`'s bound. -/
def errUnreachable : String := "iSCSI Target not reachable"

/-- The error message of `WaitForVolumeToBeReady`'s bound. -/
def errNotReady : String := "Volume is not ready: Replicas yet to connect to controller"

/-- Loop body of `WaitForVolumeToBeReachable`.  In Go, `retries` starts
at 0 and the loop errors out when `retries >= VolumeWaitRetryCount`
right after a failed dial; `gas = VolumeWaitRetryCount - 1 - retries`
counts the retries still allowed after the current dial. -/
def waitReachAux (dial : Nat → Bool) (attempt : Nat) : Nat → Except String Unit
  | 0 => if dial attempt then .ok () else .error errUnreachable
  | gas + 1 =>
      if dial attempt then .ok ()
      else waitReachAux dial (attempt + 1) gas

/-- Go `WaitForVolumeToBeReachable(targetPortal)`: dial the portal, on
failure sleep `VolumeWaitTimeout` and retry; give up after
`VolumeWaitRetryCount` failed dials. -/
def WaitForVolumeToBeReachable (dial : Nat → Bool) : Except String Unit :=
  waitReachAux dial 0 (VolumeWaitRetryCount - 1)

/-- Loop body of `WaitForVolumeToBeReady`.  An error from the status
oracle returns immediately; status `Healthy` or `Degraded` succeeds;
otherwise the Go code errors out only when `retries >= VolumeWaitRetryCount`,
so `gas = VolumeWaitRetryCount - retries` further queries remain after
the current one. -/
def waitReadyAux (getVolStatus : Nat → Except String String) (attempt : Nat) :
    Nat → Except String Unit
  | 0 =>
      match getVolStatus attempt with
      | .error e => .error e
      | .ok st =>
          if st = "Healthy" ∨ st = "Degraded" then .ok () else .error errNotReady
  | gas + 1 =>
      match getVolStatus attempt with
      | .error e => .error e
      | .ok st =>
          if st = "Healthy" ∨ st = "Degraded" then .ok ()
          else waitReadyAux getVolStatus (attempt + 1) gas

/-- Go `WaitForVolumeToBeReady(volumeID)`: query the volume status from
the cstorVolume CR until it admits I/O, retrying up to
`VolumeWaitRetryCount` times after the initial query. -/
def WaitForVolumeToBeReady (getVolStatus : Nat → Except String String) :
    Except String Unit :=
  waitReadyAux getVolStatus 0 VolumeWaitRetryCount

/-! ## Deriving the VolumeState (part_000 `GetVolumeDetails`, lines 200-224) -/

/-- Go `GetVolumeDetails(volumeID, mountPath, readOnly, mountOptions)`:
fetch the PV record and build a `CSIVolume`.  The `DevicePath` field is
never assigned, so the built record has `devicePath = ""`. -/
def GetVolumeDetails (fetchPV : Except String PVDetails)
    (volumeID mountPath : String) (readOnly : Bool) (mountOptions : List String) :
    Except String CSIVolume :=
  match fetchPV with
  | .error e => .error e
  | .ok pv =>
      .ok { name := volumeID
            fsType := pv.fsType
            capacity := pv.capacity
            accessModes := pv.accessModes
            mountPath := mountPath
            readOnly := readOnly
            mountOptions := mountOptions
            iqn := pv.iqn
            lun := pv.lun
            iscsiInterface := pv.iscsiInterface
            targetPortal := pv.targetPortal
            devicePath := "" }

/-! ## The node RPC handlers (buildlist.go lines 117-316) -/

/-- gRPC status codes surfaced by the two handlers. -/
inductive GrpcCode
  | invalidArgument
  | internal
deriving DecidableEq, Repr

/-- A gRPC `status.Error(code, msg)` value. -/
structure GrpcErr where
  code : GrpcCode
  msg : String
deriving DecidableEq, Repr

/-- The calls the handlers make to external collaborators, in order of
occurrence; used to state "the iSCSI client was not invoked" and
"only one OwnershipRecord creation" properties. -/
inductive VolEvent
  | deleteOldCR (volumeID : String)
  | createCR (volumeID : String)
  | chmodPath (path : String)
  | attachAndMount (volumeID : String)
  | unmountAndDetach (volumeID : String) (targetPath : String)
  | deleteCR (volumeID : String)
deriving DecidableEq, Repr

deriving instance DecidableEq for Except

/-- Outcome of one handler invocation: the gRPC result, the registry
contents when the handler returns, and the external calls made. -/
structure NodeResponse where
  result : Except GrpcErr Unit
  volumes : Registry
  events : List VolEvent
deriving DecidableEq, Repr

/-- Request fields of `csi.NodePublishVolumeRequest` read by the handler. -/
structure PublishRequest where
  volumeID : String
  targetPath : String
  hasVolumeCapability : Bool
  readOnly : Bool
  mountFlags : List String

/-- Outcomes of the external calls `NodePublishVolume` makes, in program
order.  `getVolStatus` and `dial` are the attempt-indexed oracles
consumed by the readiness probers (`dial` probes
`vol.Spec.ISCSI.TargetPortal`). -/
structure PublishEnv where
  fetchPV : Except String PVDetails
  getVolStatus : Nat → Except String String
  dial : Nat → Bool
  deleteOldCSIVolumeCR : Except String Unit
  createCSIVolumeCR : Except String Unit
  chmodMountPath : Except String Unit
  attachAndMountDisk : Except String String

/-- Seconds slept by the republish re-verify wait (buildlist.go line 188):
`VolumeWaitRetryCount * VolumeWaitTimeout`. -/
def republishSleepSeconds : Nat := VolumeWaitRetryCount * VolumeWaitTimeout

/-- The fresh-publish path of `NodePublishVolume` (buildlist.go lines
199-248), entered from `verifyPublish` when no registry record exists,
with `volumesLock` held: clear any stale CR of another node, create this
node's CR, insert the record (still with `devicePath = ""`), release the
lock, chmod the target dir, attach+mount, and finally write the returned
device path into the record. -/
def publishFresh (env : PublishEnv) (volumeID : String) (vol : CSIVolume)
    (reg : Registry) : NodeResponse :=
  match env.deleteOldCSIVolumeCR with
  | .error e =>
      ⟨.error ⟨.internal, e⟩, reg, [.deleteOldCR volumeID]⟩
  | .ok _ =>
  match env.createCSIVolumeCR with
  | .error e =>
      ⟨.error ⟨.internal, e⟩, reg, [.deleteOldCR volumeID, .createCR volumeID]⟩
  | .ok _ =>
  -- Go: utils.Volumes[volumeID] = vol ; utils.VolumesListLock.Unlock()
  let reg1 := regPut reg volumeID vol
  match env.chmodMountPath with
  | .error e =>
      ⟨.error ⟨.internal, e⟩, reg1,
        [.deleteOldCR volumeID, .createCR volumeID, .chmodPath vol.mountPath]⟩
  | .ok _ =>
  match env.attachAndMountDisk with
  | .error e =>
      ⟨.error ⟨.internal, e⟩, reg1,
        [.deleteOldCR volumeID, .createCR volumeID, .chmodPath vol.mountPath,
          .attachAndMount volumeID]⟩
  | .ok devicePath =>
      -- Go: vol.Spec.Volume.DevicePath = devicePath (under volumesLock);
      -- the pointer written is the map entry inserted above.
      ⟨.ok (), regPut reg1 volumeID { vol with devicePath := devicePath },
        [.deleteOldCR volumeID, .createCR volumeID, .chmodPath vol.mountPath,
          .attachAndMount volumeID]⟩

/-- Go `NodePublishVolume` (buildlist.go lines 121-249).  `volumes` is
the registry contents at the first `verifyPublish` entry;
`volumesAfterSleep` is the contents observed if the handler re-enters
`verifyPublish` after its single `time.Sleep` (other tasks may have run
during the sleep, which is taken with `volumesLock` released).
Go's `len(s) == 0` checks are written as `s = ""`. -/
def NodePublishVolume (env : PublishEnv) (req : PublishRequest)
    (volumes volumesAfterSleep : Registry) : NodeResponse :=
  if req.hasVolumeCapability = false then
    ⟨.error ⟨.invalidArgument, "Volume capability missing in request"⟩, volumes, []⟩
  else if req.volumeID = "" then
    ⟨.error ⟨.invalidArgument, "Volume ID missing in request"⟩, volumes, []⟩
  else
  match GetVolumeDetails env.fetchPV req.volumeID req.targetPath
      req.readOnly req.mountFlags with
  | .error e => ⟨.error ⟨.internal, e⟩, volumes, []⟩
  | .ok vol =>
  match WaitForVolumeToBeReady env.getVolStatus with
  | .error e => ⟨.error ⟨.internal, e⟩, volumes, []⟩
  | .ok _ =>
  match WaitForVolumeToBeReachable env.dial with
  | .error e => ⟨.error ⟨.internal, e⟩, volumes, []⟩
  | .ok _ =>
  -- verifyPublish (lock acquired; held through the fresh-path insert)
  match regGet volumes req.volumeID with
  | some info =>
      if info.devicePath ≠ "" then
        -- mount already complete: idempotent Success
        ⟨.ok (), volumes, []⟩
      else
        -- mount under progress: unlock, sleep republishSleepSeconds once
        -- (reVerified := true), goto verifyPublish
        match regGet volumesAfterSleep req.volumeID with
        | some info2 =>
            if info2.devicePath ≠ "" then
              ⟨.ok (), volumesAfterSleep, []⟩
            else
              ⟨.error ⟨.internal, "Mount under progress"⟩, volumesAfterSleep, []⟩
        | none => publishFresh env req.volumeID vol volumesAfterSleep
  | none => publishFresh env req.volumeID vol volumes

/-- Request fields of `csi.NodeUnpublishVolumeRequest` read by the handler. -/
structure UnpublishRequest where
  volumeID : String
  targetPath : String

/-- Outcomes of the external calls `NodeUnpublishVolume` makes. -/
structure UnpublishEnv where
  unmountAndDetachDisk : Except String Unit
  deleteCSIVolumeCR : Except String Unit

/-- Go `NodeUnpublishVolume` (buildlist.go lines 255-316): validate the
request; under `volumesLock` fetch the record (absent ⇒ idempotent
Success) and delete it; then unmount+logout and finally delete the
CSIVolume CR. -/
def NodeUnpublishVolume (env : UnpublishEnv) (req : UnpublishRequest)
    (volumes : Registry) : NodeResponse :=
  if req.volumeID = "" then
    ⟨.error ⟨.invalidArgument, "Volume ID missing in request"⟩, volumes, []⟩
  else if req.targetPath = "" then
    ⟨.error ⟨.invalidArgument, "Target path missing in request"⟩, volumes, []⟩
  else
  match regGet volumes req.volumeID with
  | none => ⟨.ok (), volumes, []⟩
  | some _ =>
  -- Go: delete(utils.Volumes, volumeID) ; utils.VolumesListLock.Unlock()
  let volumes1 := regDel volumes req.volumeID
  match env.unmountAndDetachDisk with
  | .error e =>
      ⟨.error ⟨.internal, e⟩, volumes1,
        [.unmountAndDetach req.volumeID req.targetPath]⟩
  | .ok _ =>
  match env.deleteCSIVolumeCR with
  | .error e =>
      ⟨.error ⟨.internal, e⟩, volumes1,
        [.unmountAndDetach req.volumeID req.targetPath, .deleteCR req.volumeID]⟩
  | .ok _ =>
      ⟨.ok (), volumes1,
        [.unmountAndDetach req.volumeID req.targetPath, .deleteCR req.volumeID]⟩

/-! ## The mount supervisor (part_000 `MonitorMounts`, lines 236-284) -/

/-- Go `listContains(mountPath, list)`: linear search of the kernel
mount table for the volume's mount path. -/
def listContains (mountPath : String) : List MountPoint → Option MountPoint × Bool
  | [] => (none, false)
  | info :: rest =>
      if info.path = mountPath then (some info, true)
      else listContains mountPath rest

/-- Go `verifyMountOpts(opts, desiredOpt)`: is the desired option among
the mount options. -/
def verifyMountOpts (opts : List String) (desiredOpt : String) : Bool :=
  opts.any (fun opt => opt = desiredOpt)

/-- The dereference `mountPoint.Opts`; the Go code performs it only
under `exists = true`, where `mountPoint ≠ nil`. -/
def mountPointOpts : Option MountPoint → List String
  | some mp => mp.opts
  | none => []

/-- The arguments of one `go RemountVolume(exists, vol, mountPoint,
vol.Spec.Volume.MountPath)` spawn. -/
structure RemountRequest where
  existsInTable : Bool
  vol : CSIVolume
  mountPoint : Option MountPoint
  desiredMountOpt : String
deriving DecidableEq, Repr

/-- One iteration of the supervisor's per-volume loop body
(part_000 lines 255-279): skip when `devicePath = ""`, skip when mounted
`rw`, skip when already being remounted; otherwise insert into
`ReqMountList` and spawn a remount. -/
def monitorOne (list : List MountPoint) (req : List String) (vol : CSIVolume) :
    List String × Option RemountRequest :=
  if vol.devicePath = "" then
    -- node publish not completed yet
    (req, none)
  else
    match listContains vol.mountPath list with
    | (mountPoint, ex) =>
        if ex && verifyMountOpts (mountPointOpts mountPoint) "rw" then
          -- volume is in good shape
          (req, none)
        else if vol.name ∈ req then
          -- already being remounted
          (req, none)
        else
          (vol.name :: req, some ⟨ex, vol, mountPoint, vol.mountPath⟩)

/-- The supervisor's sweep over the registry values, threading
`ReqMountList` and collecting the spawned remount tasks. -/
def monitorLoop (list : List MountPoint) :
    List (String × CSIVolume) → List String → List String × List RemountRequest
  | [], req => (req, [])
  | (_, vol) :: rest, req =>
      match monitorOne list req vol with
      | (req', none) => monitorLoop list rest req'
      | (req', some r) =>
          match monitorLoop list rest req' with
          | (reqF, spawns) => (reqF, r :: spawns)

/-- One tick of Go `MonitorMounts` (the body of the `ticker.C` case):
read the mount table `list`, sweep the registry, return the new state
and the remount tasks spawned this tick.  The registry itself is only
read (`VolumesListLock.RLock`), never written. -/
def MonitorMountsTick (list : List MountPoint) (s : DriverState) :
    DriverState × List RemountRequest :=
  match monitorLoop list s.volumes s.reqMountList with
  | (req', spawns) => ({ s with reqMountList := req' }, spawns)

/-! ## The repair worker (part_000 `RemountVolume`, lines 316-344) -/

/-- Outcomes of the external calls `RemountVolume` makes: the
`mounter.Mount` in the exists-branch and `iscsi.AttachAndMountDisk` in
the missing-branch.  (`mounter.Unmount`'s error is discarded by the Go
code, so only the call itself would matter and no claim needs it.) -/
structure RemountEnv where
  mountResult : Except String Unit
  attachAndMountDisk : Except String String

/-- Go `RemountVolume(exists, vol, mountPoint, desiredMountOpt)`:
wait (unbounded) for readiness+reachability, then either
unmount+mount-rw the existing mount point or do a full iSCSI
attach+mount; in every case remove the volume from `ReqMountList`
before returning.  The registry global `Volumes` is never touched
(the devicePath write is an unresolved TODO in the source), which the
state-threading makes explicit.  Returns the new driver state, the
`devicePath` result, and the error result. -/
def RemountVolume (env : RemountEnv) (existsInTable : Bool) (vol : CSIVolume)
    (mountPoint : Option MountPoint) (desiredMountOpt : String)
    (s : DriverState) : DriverState × String × Option String :=
  -- WaitForVolumeReadyAndReachable(vol): loops until both probes pass;
  -- no state is read or written, so a completed wait is a no-op here.
  let (devicePath, err) :=
    if existsInTable then
      match env.mountResult with
      | .ok _ => ("", none)
      | .error e => ("", some e)
    else
      match env.attachAndMountDisk with
      | .ok d => (d, none)
      | .error e => ("", some e)
  -- Go: delete(ReqMountList, vol.Spec.Volume.Name) on every exit path
  (⟨s.volumes, s.reqMountList.filter (fun x => x ≠ vol.name)⟩, devicePath, err)

/-! ## Registry-visible steps (for the devicePath monotonicity invariant)

Every write to the global `Volumes` map in the repository occurs at one
of three places, each executed under `VolumesLock`:
* the publish insert, `utils.Volumes[volumeID] = vol` (buildlist.go
  line 217), reached only from the `verifyPublish` branch in which the
  lookup found no record — the lock is held from the lookup through the
  insert — and inserting the `GetVolumeDetails` record, whose
  `devicePath` is `""`;
* the publish finalize, `vol.Spec.Volume.DevicePath = devicePath`
  (buildlist.go line 245), which writes through the pointer this very
  call inserted.  It changes the map entry only while that entry still
  is this call's record, which still carries `devicePath = ""` (no other
  task writes through this pointer); if unpublish removed the record
  during attach, the write touches an object no longer in the map and
  the registry is unchanged (covered by `frame`);
* the unpublish delete, `delete(utils.Volumes, volumeID)` (buildlist.go
  line 281).
`MonitorMounts` and `RemountVolume` never write `Volumes` (see
`MonitorMountsTick` and `RemountVolume`); their steps, and any other
task's no-op, are the `frame` step. -/
inductive RegStep : Registry → Registry → Prop
  | publishInsert (r : Registry) (id : String) (vol : CSIVolume)
      (habsent : regGet r id = none) (hdp : vol.devicePath = "") :
      RegStep r (regPut r id vol)
  | publishFinalize (r : Registry) (id : String) (vol : CSIVolume) (d : String)
      (hget : regGet r id = some vol) (hdp : vol.devicePath = "") :
      RegStep r (regPut r id { vol with devicePath := d })
  | unpublishDelete (r : Registry) (id : String) :
      RegStep r (regDel r id)
  | frame (r : Registry) : RegStep r r

/-! ## The repair set / in-flight repair tasks (for at-most-one repair)

A task-level abstraction of the supervisor-worker protocol:
`repairSet` is `ReqMountList`'s key set, `inflight` the multiset of
running `RemountVolume` tasks (as the list of their volume names).
`spawn` is the supervisor's guarded insert-then-`go` (part_000 lines
271-279; the guard is the `isRemounting` check — the supervisor is the
only task that inserts, so a name it found absent stays absent until
its own insert); `finish` is a worker's exit, which deletes its name
from `ReqMountList` on every path (part_000 lines 338-342). -/
structure RepairSystem where
  repairSet : List String
  inflight : List String
deriving DecidableEq, Repr

/-- The steps of the supervisor-worker repair protocol. -/
inductive RepairStep : RepairSystem → RepairSystem → Prop
  | spawn (s : RepairSystem) (id : String) (h : id ∉ s.repairSet) :
      RepairStep s ⟨id :: s.repairSet, id :: s.inflight⟩
  | finish (s : RepairSystem) (id : String) (h : id ∈ s.inflight) :
      RepairStep s ⟨s.repairSet.filter (fun x => x ≠ id), s.inflight.erase id⟩

/-- The invariant justifying at-most-one in-flight repair per volume:
no duplicates among running tasks, and every running task holds its
slot in the repair set. -/
def RepairInv (s : RepairSystem) : Prop :=
  s.inflight.Nodup ∧ ∀ id ∈ s.inflight, id ∈ s.repairSet

/-! ## Concrete sample inputs used by witnesses and counterexamples -/

/-- A status oracle that reports `Offline` on the first
`VolumeWaitRetryCount` queries and `Healthy` from the next one on. -/
def readyOracleSix : Nat → Except String String :=
  fun i => if i < VolumeWaitRetryCount then .ok "Offline" else .ok "Healthy"

/-- A status oracle that errors immediately. -/
def readyOracleErr : Nat → Except String String :=
  fun _ => .error "connection refused"

/-- A status oracle that always reports `Healthy`. -/
def readyOracleOk : Nat → Except String String :=
  fun _ => .ok "Healthy"

/-- A dial oracle that succeeds only on the last dial within the bound
(attempt index `VolumeWaitRetryCount - 1`). -/
def dialOracleLast : Nat → Bool :=
  fun i => i = VolumeWaitRetryCount - 1

/-- A dial oracle that always fails. -/
def dialOracleDown : Nat → Bool := fun _ => false

/-- A dial oracle that always succeeds. -/
def dialOracleUp : Nat → Bool := fun _ => true

/-- A sample already-published volume record. -/
def sampleVolPublished : CSIVolume :=
  { name := "pvc-1", fsType := "ext4", capacity := "5G"
    accessModes := ["ReadWriteOnce"], mountPath := "/mnt/vol1"
    readOnly := false, mountOptions := []
    iqn := "iqn.2019-01.org.example:pvc-1", lun := "0"
    iscsiInterface := "default", targetPortal := "10.0.0.1:3260"
    devicePath := "/dev/sdb" }

/-- The same volume before its first mount completed. -/
def sampleVolPending : CSIVolume :=
  { sampleVolPublished with devicePath := "" }

/-- A sample PV record matching `sampleVolPublished`. -/
def samplePV : PVDetails :=
  { fsType := "ext4", capacity := "5G", accessModes := ["ReadWriteOnce"]
    iqn := "iqn.2019-01.org.example:pvc-1", lun := "0"
    iscsiInterface := "default", targetPortal := "10.0.0.1:3260" }

/-- A publish environment in which every external call succeeds. -/
def envAllOk : PublishEnv :=
  { fetchPV := .ok samplePV
    getVolStatus := readyOracleOk
    dial := dialOracleUp
    deleteOldCSIVolumeCR := .ok ()
    createCSIVolumeCR := .ok ()
    chmodMountPath := .ok ()
    attachAndMountDisk := .ok "/dev/sdb" }

/-- A publish environment in which only the iSCSI attach+mount fails. -/
def envAttachFails : PublishEnv :=
  { envAllOk with attachAndMountDisk := .error "iscsiadm: login failed" }

/-- A well-formed publish request for `sampleVolPublished`. -/
def sampleReq : PublishRequest :=
  { volumeID := "pvc-1", targetPath := "/mnt/vol1"
    hasVolumeCapability := true, readOnly := false, mountFlags := [] }

/-- A well-formed unpublish request for the same volume. -/
def sampleUnpubReq : UnpublishRequest :=
  { volumeID := "pvc-1", targetPath := "/mnt/vol1" }

/-- An unpublish environment in which the teardown fails. -/
def unpubEnvTeardownFails : UnpublishEnv :=
  { unmountAndDetachDisk := .error "umount: target is busy"
    deleteCSIVolumeCR := .ok () }

/-- An unpublish environment in which every external call succeeds. -/
def unpubEnvAllOk : UnpublishEnv :=
  { unmountAndDetachDisk := .ok (), deleteCSIVolumeCR := .ok () }

/-- A publish environment whose status oracle errors at once. -/
def envStatusErr : PublishEnv :=
  { envAllOk with getVolStatus := readyOracleErr }

/-! ## Registry lemmas -/

theorem regGet_regPut_self (r : Registry) (k : String) (v : CSIVolume) :
    regGet (regPut r k v) k = some v := by
  induction r with
  | nil => simp [regPut, regGet]
  | cons kv rest ih =>
      obtain ⟨k', v'⟩ := kv
      by_cases h : k' = k <;> simp [regPut, regGet, h, ih]

theorem regGet_regPut_other (r : Registry) (k k' : String) (v : CSIVolume)
    (h : k' ≠ k) : regGet (regPut r k v) k' = regGet r k' := by
  induction r with
  | nil => simp [regPut, regGet, Ne.symm h]
  | cons kv rest ih =>
      obtain ⟨k₀, v₀⟩ := kv
      by_cases h₀ : k₀ = k
      · subst h₀
        simp [regPut, regGet, Ne.symm h]
      · simp only [regPut, if_neg h₀]
        by_cases h₁ : k₀ = k' <;> simp [regGet, h₁, ih]

theorem regGet_regDel_self (r : Registry) (k : String) :
    regGet (regDel r k) k = none := by
  induction r with
  | nil => simp [regDel, regGet]
  | cons kv rest ih =>
      obtain ⟨k₀, v₀⟩ := kv
      by_cases h : k₀ = k
      · subst h
        simpa [regDel, regGet] using ih
      · simpa [regDel, regGet, h] using ih

theorem regGet_regDel_other (r : Registry) (k k' : String) (h : k' ≠ k) :
    regGet (regDel r k) k' = regGet r k' := by
  induction r with
  | nil => simp [regDel, regGet]
  | cons kv rest ih =>
      obtain ⟨k₀, v₀⟩ := kv
      by_cases h₀ : k₀ = k
      · subst h₀
        simpa [regDel, regGet, Ne.symm h] using ih
      · by_cases h₁ : k₀ = k'
        · simp [regDel, regGet, List.filter_cons, h₀, h₁, h]
        · simpa [regDel, regGet, List.filter_cons, h₀, h₁] using ih

/-- Per-step devicePath evolution of a record that persists across the
step: either the record is untouched, or it was the publish finalize of
a record whose devicePath was still `""`. -/
theorem RegStep.devicePath_cases {r r' : Registry} (h : RegStep r r')
    {id : String} {v v' : CSIVolume}
    (hv : regGet r id = some v) (hv' : regGet r' id = some v') :
    v' = v ∨ v.devicePath = "" := by
  cases h with
  | publishInsert id' vol habsent hdp =>
      by_cases hid : id = id'
      · subst hid
        rw [habsent] at hv
        exact absurd hv (by simp)
      · rw [regGet_regPut_other r id' id vol hid] at hv'
        rw [hv] at hv'
        exact Or.inl (Option.some.inj hv').symm
  | publishFinalize id' vol d hget hdp =>
      by_cases hid : id = id'
      · subst hid
        rw [hget] at hv
        have : v = vol := (Option.some.inj hv).symm
        subst this
        exact Or.inr hdp
      · rw [regGet_regPut_other r id' id _ hid] at hv'
        rw [hv] at hv'
        exact Or.inl (Option.some.inj hv').symm
  | unpublishDelete id' =>
      by_cases hid : id = id'
      · subst hid
        rw [regGet_regDel_self r id] at hv'
        exact absurd hv' (by simp)
      · rw [regGet_regDel_other r id' id hid] at hv'
        rw [hv] at hv'
        exact Or.inl (Option.some.inj hv').symm
  | frame =>
      rw [hv] at hv'
      exact Or.inl (Option.some.inj hv').symm

/-- Once a persisting record's devicePath is non-empty, a step leaves
the whole record unchanged. -/
theorem RegStep.frozen_of_devicePath_ne {r r' : Registry} (h : RegStep r r')
    {id : String} {v v' : CSIVolume}
    (hv : regGet r id = some v) (hv' : regGet r' id = some v')
    (hne : v.devicePath ≠ "") : v' = v := by
  rcases h.devicePath_cases hv hv' with heq | hempty
  · exact heq
  · exact absurd hempty hne

theorem RepairInv.preserved {s s' : RepairSystem} (hinv : RepairInv s)
    (h : RepairStep s s') : RepairInv s' := by
  obtain ⟨hnd, hsub⟩ := hinv
  cases h with
  | spawn id h =>
      refine ⟨List.nodup_cons.mpr ⟨fun hmem => h (hsub id hmem), hnd⟩, ?_⟩
      intro x hx
      rcases List.mem_cons.mp hx with hx | hx
      · exact List.mem_cons.mpr (Or.inl hx)
      · exact List.mem_cons.mpr (Or.inr (hsub x hx))
  | finish id h =>
      refine ⟨hnd.erase id, ?_⟩
      intro x hx
      have hx' := (List.Nodup.mem_erase_iff hnd).mp hx
      refine List.mem_filter.mpr ⟨hsub x hx'.2, ?_⟩
      simp [hx'.1]

/-- Invariance along every execution from the initial state (both sets
empty, as established by `init()` in part_000 lines 95-96). -/
theorem repairInv_reachable (s : RepairSystem)
    (h : Relation.ReflTransGen RepairStep ⟨[], []⟩ s) : RepairInv s := by
  induction h with
  | refl => exact ⟨List.nodup_nil, by intro id h; cases h⟩
  | tail _ hstep ih => exact ih.preserved hstep

/-! ## Prober lemmas -/

/-- If every dial within the budget fails, the reachability loop fails. -/
theorem waitReachAux_fail (dial : Nat → Bool) (gas attempt : Nat)
    (h : ∀ i, i ≤ gas → dial (attempt + i) = false) :
    waitReachAux dial attempt gas = .error errUnreachable := by
  induction gas generalizing attempt with
  | zero => simpa [waitReachAux] using h 0 (Nat.le_refl 0)
  | succ g ih =>
      have h0 : dial attempt = false := by simpa using h 0 (Nat.zero_le _)
      have hrest : ∀ i, i ≤ g → dial (attempt + 1 + i) = false := by
        intro i hi
        have := h (i + 1) (Nat.succ_le_succ hi)
        simpa [Nat.add_comm, Nat.add_left_comm, Nat.add_assoc] using this
      simp [waitReachAux, h0, ih (attempt + 1) hrest]

/-- If the k-th dial within the budget succeeds, the loop succeeds. -/
theorem waitReachAux_succeed (dial : Nat → Bool) (gas attempt k : Nat)
    (hk : k ≤ gas) (hsucc : dial (attempt + k) = true) :
    waitReachAux dial attempt gas = .ok () := by
  induction gas generalizing attempt k with
  | zero =>
      interval_cases k
      simpa [waitReachAux] using hsucc
  | succ g ih =>
      by_cases h0 : dial attempt = true
      · cases gas_eq : g + 1 <;> simp [waitReachAux, h0]
      · match k with
        | 0 => simp at hsucc; exact absurd hsucc h0
        | k' + 1 =>
            have : dial (attempt + 1 + k') = true := by
              simpa [Nat.add_comm, Nat.add_left_comm, Nat.add_assoc] using hsucc
            simp [waitReachAux, h0, ih (attempt + 1) k' (Nat.lt_succ_iff.mp hk) this]

/-- If every status query within the budget returns a status admitting
no I/O (and no query errors), the readiness loop fails. -/
theorem waitReadyAux_fail (oracle : Nat → Except String String) (gas attempt : Nat)
    (h : ∀ i, i ≤ gas → ∃ st, oracle (attempt + i) = .ok st ∧
        st ≠ "Healthy" ∧ st ≠ "Degraded") :
    waitReadyAux oracle attempt gas = .error errNotReady := by
  induction gas generalizing attempt with
  | zero =>
      obtain ⟨st, hst, h1, h2⟩ := h 0 (Nat.le_refl 0)
      simp only [Nat.add_zero] at hst
      simp [waitReadyAux, hst, h1, h2]
  | succ g ih =>
      obtain ⟨st, hst, h1, h2⟩ := h 0 (Nat.zero_le _)
      simp only [Nat.add_zero] at hst
      have hrest : ∀ i, i ≤ g → ∃ st, oracle (attempt + 1 + i) = .ok st ∧
          st ≠ "Healthy" ∧ st ≠ "Degraded" := by
        intro i hi
        obtain ⟨st', hst', h1', h2'⟩ := h (i + 1) (Nat.succ_le_succ hi)
        exact ⟨st', by simpa [Nat.add_comm, Nat.add_left_comm, Nat.add_assoc] using hst', h1', h2'⟩
      simp [waitReadyAux, hst, h1, h2, ih (attempt + 1) hrest]

/-- If the k-th status query within the budget reports `Healthy` or
`Degraded` and no earlier query errored, the readiness loop succeeds. -/
theorem waitReadyAux_succeed (oracle : Nat → Except String String) (gas attempt k : Nat)
    (hk : k ≤ gas)
    (hbefore : ∀ i, i < k → ∃ st, oracle (attempt + i) = .ok st ∧
        st ≠ "Healthy" ∧ st ≠ "Degraded")
    (hready : ∃ st, oracle (attempt + k) = .ok st ∧
        (st = "Healthy" ∨ st = "Degraded")) :
    waitReadyAux oracle attempt gas = .ok () := by
  induction gas generalizing attempt k with
  | zero =>
      interval_cases k
      obtain ⟨st, hst, hor⟩ := hready
      simp only [Nat.add_zero] at hst
      simp [waitReadyAux, hst, hor]
  | succ g ih =>
      match k with
      | 0 =>
          obtain ⟨st, hst, hor⟩ := hready
          simp only [Nat.add_zero] at hst
          simp [waitReadyAux, hst, hor]
      | k' + 1 =>
          obtain ⟨st, hst, h1, h2⟩ := hbefore 0 (Nat.succ_pos _)
          simp only [Nat.add_zero] at hst
          have hbefore' : ∀ i, i < k' → ∃ st, oracle (attempt + 1 + i) = .ok st ∧
              st ≠ "Healthy" ∧ st ≠ "Degraded" := by
            intro i hi
            obtain ⟨st', hst', h1', h2'⟩ := hbefore (i + 1) (Nat.succ_lt_succ hi)
            exact ⟨st', by simpa [Nat.add_comm, Nat.add_left_comm, Nat.add_assoc] using hst', h1', h2'⟩
          have hready' : ∃ st, oracle (attempt + 1 + k') = .ok st ∧
              (st = "Healthy" ∨ st = "Degraded") := by
            obtain ⟨st', hst', hor⟩ := hready
            exact ⟨st', by simpa [Nat.add_comm, Nat.add_left_comm, Nat.add_assoc] using hst', hor⟩
          simp [waitReadyAux, hst, h1, h2,
            ih (attempt + 1) k' (Nat.lt_succ_iff.mp hk) hbefore' hready']

/-- An error from the status oracle propagates out of the loop at once. -/
theorem waitReadyAux_error (oracle : Nat → Except String String) (gas attempt : Nat)
    (e : String) (h : oracle attempt = .error e) :
    waitReadyAux oracle attempt gas = .error e := by
  cases gas <;> simp [waitReadyAux, h]

/-! ## Supervisor sweep lemmas -/

/-- A skip iteration leaves `ReqMountList` unchanged. -/
theorem monitorOne_none {list : List MountPoint} {req : List String}
    {vol : CSIVolume} {req' : List String}
    (h : monitorOne list req vol = (req', none)) : req' = req := by
  unfold monitorOne at h
  by_cases h1 : vol.devicePath = ""
  · simp [h1] at h
    exact h.symm
  · simp only [h1, if_neg, if_false] at h
    rcases hlc : listContains vol.mountPath list with ⟨mp, ex⟩
    rw [hlc] at h
    simp only [h1] at h
    by_cases h2 : (ex && verifyMountOpts (mountPointOpts mp) "rw") = true
    · simp [h2] at h
      exact h.symm
    · simp only [h2] at h
      by_cases h3 : vol.name ∈ req
      · simp [h2, h3] at h
        exact h.symm
      · simp [h2, h3] at h

/-- A spawn iteration spawns the current volume, requires its
devicePath to be set and its name absent from `ReqMountList`, and
inserts the name. -/
theorem monitorOne_some {list : List MountPoint} {req : List String}
    {vol : CSIVolume} {req' : List String} {r : RemountRequest}
    (h : monitorOne list req vol = (req', some r)) :
    r.vol = vol ∧ vol.devicePath ≠ "" ∧ vol.name ∉ req ∧
      req' = vol.name :: req := by
  unfold monitorOne at h
  by_cases h1 : vol.devicePath = ""
  · simp [h1] at h
  · simp only [h1, if_neg, if_false] at h
    rcases hlc : listContains vol.mountPath list with ⟨mp, ex⟩
    rw [hlc] at h
    simp only [h1] at h
    by_cases h2 : (ex && verifyMountOpts (mountPointOpts mp) "rw") = true
    · simp [h2] at h
    · simp only [h2] at h
      by_cases h3 : vol.name ∈ req
      · simp [h2, h3] at h
      · simp [h2, h3] at h
        exact ⟨by rw [← h.2], h1, h3, h.1.symm⟩

/-- The joint specification of one supervisor sweep: `ReqMountList` only
grows; every spawned task carries a volume with non-empty `devicePath`
whose name was absent from `ReqMountList` when it was spawned and is
present afterwards; and no two tasks spawned in one sweep share a name. -/
theorem monitorLoop_spec (list : List MountPoint)
    (vols : List (String × CSIVolume)) (req : List String) :
    (∀ x ∈ req, x ∈ (monitorLoop list vols req).1) ∧
    (∀ r ∈ (monitorLoop list vols req).2,
        r.vol.devicePath ≠ "" ∧ r.vol.name ∉ req ∧
          r.vol.name ∈ (monitorLoop list vols req).1) ∧
    ((monitorLoop list vols req).2.map (fun r => r.vol.name)).Nodup := by
  induction vols generalizing req with
  | nil =>
      refine ⟨fun x hx => by simpa [monitorLoop] using hx, ?_, by simp [monitorLoop]⟩
      intro r hr
      simp [monitorLoop] at hr
  | cons kv rest ih =>
      obtain ⟨key, vol⟩ := kv
      rcases hone : monitorOne list req vol with ⟨req', ro⟩
      cases ro with
      | none =>
          have hreq : req' = req := monitorOne_none hone
          subst hreq
          have := ih req'
          simpa [monitorLoop, hone] using this
      | some r =>
          obtain ⟨hrv, hdp, hnotin, hreq'⟩ := monitorOne_some hone
          obtain ⟨ihsub, ihsp, ihnd⟩ := ih req'
          rcases hloop : monitorLoop list rest req' with ⟨reqF, spawns⟩
          rw [hloop] at ihsub ihsp ihnd
          simp only [monitorLoop, hone, hloop]
          refine ⟨?_, ?_, ?_⟩
          · intro x hx
            exact ihsub x (by rw [hreq']; exact List.mem_cons_of_mem _ hx)
          · intro r' hr'
            rcases List.mem_cons.mp hr' with hr' | hr'
            · subst hr'
              refine ⟨by rw [hrv]; exact hdp, by rw [hrv]; exact hnotin, ?_⟩
              rw [hrv]
              exact ihsub vol.name (by rw [hreq']; exact List.mem_cons_self _ _)
            · obtain ⟨hdp', hnotin', hmem'⟩ := ihsp r' hr'
              refine ⟨hdp', ?_, hmem'⟩
              intro hcontra
              exact hnotin' (by rw [hreq']; exact List.mem_cons_of_mem _ hcontra)
          · simp only [List.map_cons, List.nodup_cons]
            refine ⟨?_, ihnd⟩
            intro hcontra
            rcases List.mem_map.mp hcontra with ⟨r', hr', hname⟩
            obtain ⟨_, hnotin', _⟩ := ihsp r' hr'
            rw [hrv] at hname
            exact hnotin' (by rw [hreq', hname]; exact List.mem_cons_self _ _)

/-! ## Claim theorems -/

/-- `GetVolumeDetails` never assigns `DevicePath`, so the record it
builds has an empty device path. -/
theorem GetVolumeDetails_devicePath {fetchPV : Except String PVDetails}
    {volumeID mountPath : String} {readOnly : Bool} {mountOptions : List String}
    {vol : CSIVolume}
    (h : GetVolumeDetails fetchPV volumeID mountPath readOnly mountOptions = .ok vol) :
    vol.devicePath = "" := by
  unfold GetVolumeDetails at h
  cases hpv : fetchPV with
  | error e => rw [hpv] at h; cases h
  | ok pv =>
      rw [hpv] at h
      cases h
      rfl

/-- C1: Publish and unpublish are idempotent.  If the registry record
for the requested volume exists with a non-empty `devicePath`,
`NodePublishVolume` returns `Success` leaving the registry unchanged and
making no external call (so no OwnershipRecord creation and no
attach+mount); if no registry record exists, `NodeUnpublishVolume`
returns `Success` without invoking the iSCSI client.  The request-field
and pre-step hypotheses place the call at the `verifyPublish` guard:
they are the validation and readiness steps the handler runs first. -/
theorem publish_unpublish_idempotent :
    (∀ (env : PublishEnv) (req : PublishRequest)
        (volumes volumesAfterSleep : Registry) (vol info : CSIVolume),
      req.hasVolumeCapability = true →
      req.volumeID ≠ "" →
      GetVolumeDetails env.fetchPV req.volumeID req.targetPath
        req.readOnly req.mountFlags = .ok vol →
      WaitForVolumeToBeReady env.getVolStatus = .ok () →
      WaitForVolumeToBeReachable env.dial = .ok () →
      regGet volumes req.volumeID = some info →
      info.devicePath ≠ "" →
      NodePublishVolume env req volumes volumesAfterSleep =
        ⟨.ok (), volumes, []⟩) ∧
    (∀ (env : UnpublishEnv) (req : UnpublishRequest) (volumes : Registry),
      req.volumeID ≠ "" →
      req.targetPath ≠ "" →
      regGet volumes req.volumeID = none →
      NodeUnpublishVolume env req volumes = ⟨.ok (), volumes, []⟩) := by
  constructor
  · intro env req volumes volumesAfterSleep vol info hcap hid hdet hready hreach hget hdp
    simp [NodePublishVolume, hcap, hid, hdet, hready, hreach, hget, hdp]
  · intro env req volumes hid hpath hget
    simp [NodeUnpublishVolume, hid, hpath, hget]

/-- Witness for C1 at a concrete published volume and a concrete
record-free unpublish. -/
theorem publish_unpublish_idempotent_witness :
    NodePublishVolume envAllOk sampleReq [("pvc-1", sampleVolPublished)]
        [("pvc-1", sampleVolPublished)] =
      ⟨.ok (), [("pvc-1", sampleVolPublished)], []⟩ ∧
    NodeUnpublishVolume unpubEnvAllOk sampleUnpubReq [] = ⟨.ok (), [], []⟩ :=
  ⟨publish_unpublish_idempotent.1 envAllOk sampleReq _ _ sampleVolPending
      sampleVolPublished rfl (by decide) (by decide) (by decide) (by decide)
      (by decide) (by decide),
    publish_unpublish_idempotent.2 unpubEnvAllOk sampleUnpubReq []
      (by decide) (by decide) rfl⟩

/-- C2: Supervisor safety.  On a supervisor tick, every spawned repair
task carries a volume with `devicePath ≠ ""`; volumes with an empty
`devicePath` are skipped by the first check of the loop body, before
the mount table is consulted. -/
theorem supervisor_skips_pending_volumes (list : List MountPoint)
    (s : DriverState) (r : RemountRequest)
    (hr : r ∈ (MonitorMountsTick list s).2) :
    r.vol.devicePath ≠ "" := by
  have h := (monitorLoop_spec list s.volumes s.reqMountList).2.1
  rcases hloop : monitorLoop list s.volumes s.reqMountList with ⟨req', spawns⟩
  rw [hloop] at h
  simp only [MonitorMountsTick, hloop] at hr
  exact (h r hr).1

/-- Witness for C2: a tick over a registry holding one published volume
that is absent from the mount table spawns its repair, and the theorem
yields its non-empty device path. -/
theorem supervisor_skips_pending_volumes_witness :
    (⟨false, sampleVolPublished, none, "/mnt/vol1"⟩ : RemountRequest) ∈
      (MonitorMountsTick [] ⟨[("pvc-1", sampleVolPublished)], []⟩).2 ∧
    (⟨false, sampleVolPublished, none, "/mnt/vol1"⟩ : RemountRequest).vol.devicePath ≠ "" :=
  ⟨by decide,
    supervisor_skips_pending_volumes [] ⟨[("pvc-1", sampleVolPublished)], []⟩
      ⟨false, sampleVolPublished, none, "/mnt/vol1"⟩ (by decide)⟩

/-- C4: duplicate publish during mount.  When the first `verifyPublish`
lookup finds the record with `devicePath = ""`, the handler sleeps
`republishSleepSeconds = VolumeWaitRetryCount * VolumeWaitTimeout`
seconds exactly once (the `reVerified` flag) and re-reads the registry:
a non-empty `devicePath` on re-check yields `Success`; a second
observation of an empty `devicePath` yields
`Internal("Mount under progress")`.  Either way no external call is
made and the registry is left as the re-check saw it. -/
theorem publish_mount_under_progress
    (env : PublishEnv) (req : PublishRequest)
    (volumes volumesAfterSleep : Registry) (vol info : CSIVolume)
    (hcap : req.hasVolumeCapability = true)
    (hid : req.volumeID ≠ "")
    (hdet : GetVolumeDetails env.fetchPV req.volumeID req.targetPath
      req.readOnly req.mountFlags = .ok vol)
    (hready : WaitForVolumeToBeReady env.getVolStatus = .ok ())
    (hreach : WaitForVolumeToBeReachable env.dial = .ok ())
    (hget : regGet volumes req.volumeID = some info)
    (hdp : info.devicePath = "") :
    ∀ info2, regGet volumesAfterSleep req.volumeID = some info2 →
      (info2.devicePath ≠ "" →
        NodePublishVolume env req volumes volumesAfterSleep =
          ⟨.ok (), volumesAfterSleep, []⟩) ∧
      (info2.devicePath = "" →
        NodePublishVolume env req volumes volumesAfterSleep =
          ⟨.error ⟨.internal, "Mount under progress"⟩, volumesAfterSleep, []⟩) := by
  intro info2 hget2
  constructor
  · intro hdp2
    simp [NodePublishVolume, hcap, hid, hdet, hready, hreach, hget, hdp, hget2, hdp2]
  · intro hdp2
    simp [NodePublishVolume, hcap, hid, hdet, hready, hreach, hget, hdp, hget2, hdp2]

/-- Witness for C4, applying the theorem to both re-check outcomes at
concrete registries. -/
theorem publish_mount_under_progress_witness :
    NodePublishVolume envAllOk sampleReq [("pvc-1", sampleVolPending)]
        [("pvc-1", sampleVolPublished)] =
      ⟨.ok (), [("pvc-1", sampleVolPublished)], []⟩ ∧
    NodePublishVolume envAllOk sampleReq [("pvc-1", sampleVolPending)]
        [("pvc-1", sampleVolPending)] =
      ⟨.error ⟨.internal, "Mount under progress"⟩, [("pvc-1", sampleVolPending)], []⟩ :=
  ⟨(publish_mount_under_progress envAllOk sampleReq _ _ sampleVolPending
      sampleVolPending rfl (by decide) (by decide) (by decide) (by decide)
      (by decide) rfl sampleVolPublished (by decide)).1 (by decide),
    (publish_mount_under_progress envAllOk sampleReq _ _ sampleVolPending
      sampleVolPending rfl (by decide) (by decide) (by decide) (by decide)
      (by decide) rfl sampleVolPending (by decide)).2 rfl⟩

/-- C7: Unpublish ordering and failure state.  (i) For a present record,
a failing unmount+logout yields `Internal` with the registry record
already removed (the removal precedes the teardown call) and no
CSIVolume-CR deletion issued.  (ii) In any `NodeUnpublishVolume` run,
a CR deletion occurs only when the unmount+logout succeeded. -/
theorem unpublish_removes_before_teardown :
    (∀ (env : UnpublishEnv) (req : UnpublishRequest) (volumes : Registry)
        (vol : CSIVolume) (e : String),
      req.volumeID ≠ "" →
      req.targetPath ≠ "" →
      regGet volumes req.volumeID = some vol →
      env.unmountAndDetachDisk = .error e →
      NodeUnpublishVolume env req volumes =
        ⟨.error ⟨.internal, e⟩, regDel volumes req.volumeID,
          [.unmountAndDetach req.volumeID req.targetPath]⟩ ∧
      VolEvent.deleteCR req.volumeID ∉ (NodeUnpublishVolume env req volumes).events) ∧
    (∀ (env : UnpublishEnv) (req : UnpublishRequest) (volumes : Registry),
      VolEvent.deleteCR req.volumeID ∈ (NodeUnpublishVolume env req volumes).events →
      env.unmountAndDetachDisk = .ok ()) := by
  constructor
  · intro env req volumes vol e hid hpath hget hun
    refine ⟨?_, ?_⟩
    · simp [NodeUnpublishVolume, hid, hpath, hget, hun]
    · simp [NodeUnpublishVolume, hid, hpath, hget, hun]
  · intro env req volumes hmem
    by_cases h1 : req.volumeID = ""
    · simp [NodeUnpublishVolume, h1] at hmem
    · by_cases h2 : req.targetPath = ""
      · simp [NodeUnpublishVolume, h1, h2] at hmem
      · cases hget : regGet volumes req.volumeID with
        | none => simp [NodeUnpublishVolume, h1, h2, hget] at hmem
        | some vol =>
            cases hun : env.unmountAndDetachDisk with
            | error e => simp [NodeUnpublishVolume, h1, h2, hget, hun] at hmem
            | ok u => cases u; rfl

/-- Witness for C7: a concrete unpublish whose teardown fails leaves
the record removed, returns `Internal`, and never deletes the CR. -/
theorem unpublish_removes_before_teardown_witness :
    NodeUnpublishVolume unpubEnvTeardownFails sampleUnpubReq
        [("pvc-1", sampleVolPublished)] =
      ⟨.error ⟨.internal, "umount: target is busy"⟩,
        regDel [("pvc-1", sampleVolPublished)] "pvc-1",
        [.unmountAndDetach "pvc-1" "/mnt/vol1"]⟩ ∧
    VolEvent.deleteCR "pvc-1" ∉
      (NodeUnpublishVolume unpubEnvTeardownFails sampleUnpubReq
        [("pvc-1", sampleVolPublished)]).events :=
  unpublish_removes_before_teardown.1 unpubEnvTeardownFails sampleUnpubReq
    [("pvc-1", sampleVolPublished)] sampleVolPublished "umount: target is busy"
    (by decide) (by decide) (by decide) rfl

/-- C8: Publish attach-failure frame.  When the fresh-publish path's
attach+mount fails, the handler returns `Internal`; the registry entry
inserted earlier in the same call is still present with
`devicePath = ""`, and the CSIVolume CR created earlier in the call is
not deleted (the publish path never issues a CR deletion for its own
record). -/
theorem publish_attach_failure_frame
    (env : PublishEnv) (req : PublishRequest)
    (volumes volumesAfterSleep : Registry) (vol : CSIVolume) (e : String)
    (hcap : req.hasVolumeCapability = true)
    (hid : req.volumeID ≠ "")
    (hdet : GetVolumeDetails env.fetchPV req.volumeID req.targetPath
      req.readOnly req.mountFlags = .ok vol)
    (hready : WaitForVolumeToBeReady env.getVolStatus = .ok ())
    (hreach : WaitForVolumeToBeReachable env.dial = .ok ())
    (habsent : regGet volumes req.volumeID = none)
    (hdel : env.deleteOldCSIVolumeCR = .ok ())
    (hcre : env.createCSIVolumeCR = .ok ())
    (hchmod : env.chmodMountPath = .ok ())
    (hattach : env.attachAndMountDisk = .error e) :
    NodePublishVolume env req volumes volumesAfterSleep =
      ⟨.error ⟨.internal, e⟩, regPut volumes req.volumeID vol,
        [.deleteOldCR req.volumeID, .createCR req.volumeID,
          .chmodPath vol.mountPath, .attachAndMount req.volumeID]⟩ ∧
    regGet (NodePublishVolume env req volumes volumesAfterSleep).volumes
      req.volumeID = some vol ∧
    vol.devicePath = "" ∧
    VolEvent.createCR req.volumeID ∈
      (NodePublishVolume env req volumes volumesAfterSleep).events ∧
    VolEvent.deleteCR req.volumeID ∉
      (NodePublishVolume env req volumes volumesAfterSleep).events := by
  have heq : NodePublishVolume env req volumes volumesAfterSleep =
      ⟨.error ⟨.internal, e⟩, regPut volumes req.volumeID vol,
        [.deleteOldCR req.volumeID, .createCR req.volumeID,
          .chmodPath vol.mountPath, .attachAndMount req.volumeID]⟩ := by
    simp [NodePublishVolume, publishFresh, hcap, hid, hdet, hready, hreach,
      habsent, hdel, hcre, hchmod, hattach]
  refine ⟨heq, ?_, GetVolumeDetails_devicePath hdet, ?_, ?_⟩
  · rw [heq]
    exact regGet_regPut_self volumes req.volumeID vol
  · rw [heq]
    simp
  · rw [heq]
    simp

/-- Witness for C8 at a concrete fresh publish whose attach fails. -/
theorem publish_attach_failure_frame_witness :
    NodePublishVolume envAttachFails sampleReq [] [] =
      ⟨.error ⟨.internal, "iscsiadm: login failed"⟩,
        regPut [] "pvc-1" sampleVolPending,
        [.deleteOldCR "pvc-1", .createCR "pvc-1",
          .chmodPath "/mnt/vol1", .attachAndMount "pvc-1"]⟩ ∧
    regGet (NodePublishVolume envAttachFails sampleReq [] []).volumes "pvc-1" =
      some sampleVolPending ∧
    sampleVolPending.devicePath = "" ∧
    VolEvent.createCR "pvc-1" ∈
      (NodePublishVolume envAttachFails sampleReq [] []).events ∧
    VolEvent.deleteCR "pvc-1" ∉
      (NodePublishVolume envAttachFails sampleReq [] []).events :=
  publish_attach_failure_frame envAttachFails sampleReq [] [] sampleVolPending
    "iscsiadm: login failed" rfl (by decide) (by decide) (by decide) (by decide)
    rfl rfl rfl rfl rfl

/-- C3: Registry-devicePath monotonicity.  (i) Across any single
registry-visible step of publish, unpublish, supervisor or repair, a
record that persists and already has `devicePath ≠ ""` is left
unchanged — so along any chain of such steps (part ii) the devicePath
of a continuously-existing record transitions `""` → non-`""` at most
once (at the publish finalize, the only write) and never transitions
back to `""`.  (iii)/(iv) The supervisor tick and the repair worker
never write the registry at all. -/
theorem registry_devicePath_monotonic :
    (∀ (r r' : Registry) (id : String) (v v' : CSIVolume),
      RegStep r r' → regGet r id = some v → regGet r' id = some v' →
      v.devicePath ≠ "" → v' = v) ∧
    (∀ (f : Nat → Registry) (n : Nat) (id : String),
      (∀ i, i < n → RegStep (f i) (f (i + 1))) →
      ∀ i j, i ≤ j → j ≤ n →
      (∀ k, i ≤ k → k ≤ j → ∃ v, regGet (f k) id = some v) →
      ∀ vi vj, regGet (f i) id = some vi → regGet (f j) id = some vj →
      vi.devicePath ≠ "" → vj = vi) ∧
    (∀ (list : List MountPoint) (s : DriverState),
      (MonitorMountsTick list s).1.volumes = s.volumes) ∧
    (∀ (env : RemountEnv) (existsInTable : Bool) (vol : CSIVolume)
        (mountPoint : Option MountPoint) (desiredMountOpt : String)
        (s : DriverState),
      (RemountVolume env existsInTable vol mountPoint desiredMountOpt s).1.volumes
        = s.volumes) := by
  refine ⟨?_, ?_, ?_, ?_⟩
  · intro r r' id v v' hstep hv hv' hne
    exact hstep.frozen_of_devicePath_ne hv hv' hne
  · intro f n id hsteps i j hij
    induction j, hij using Nat.le_induction with
    | base =>
        intro _ _ vi vj hvi hvj hne
        rw [hvi] at hvj
        exact (Option.some.inj hvj).symm
    | succ j hj ih =>
        intro hj1n hpers vi vj1 hvi hvj1 hne
        have hjn : j ≤ n := Nat.le_of_succ_le hj1n
        obtain ⟨vj, hvj⟩ := hpers j hj (Nat.le_succ j)
        have hvjvi : vj = vi :=
          ih hjn (fun k hk1 hk2 => hpers k hk1 (hk2.trans (Nat.le_succ j)))
            vi vj hvi hvj hne
        have hstep := hsteps j (Nat.lt_of_succ_le hj1n)
        rw [hvjvi] at hvj
        exact hstep.frozen_of_devicePath_ne hvj hvj1 hne
  · intro list s
    rcases hloop : monitorLoop list s.volumes s.reqMountList with ⟨req', spawns⟩
    simp [MonitorMountsTick, hloop]
  · intro env existsInTable vol mountPoint desiredMountOpt s
    cases existsInTable with
    | false => cases h : env.attachAndMountDisk <;> simp [RemountVolume, h]
    | true => cases h : env.mountResult <;> simp [RemountVolume, h]

/-- Witness for C3: an unpublish of one volume is a registry step across
which the other, already-published record persists untouched. -/
theorem registry_devicePath_monotonic_witness :
    regGet [("pvc-1", sampleVolPublished), ("pvc-2", sampleVolPending)]
      "pvc-1" = some sampleVolPublished ∧
    sampleVolPublished.devicePath ≠ "" ∧
    sampleVolPublished = sampleVolPublished :=
  ⟨rfl, by decide,
    registry_devicePath_monotonic.1
      [("pvc-1", sampleVolPublished), ("pvc-2", sampleVolPending)]
      (regDel [("pvc-1", sampleVolPublished), ("pvc-2", sampleVolPending)] "pvc-2")
      "pvc-1" sampleVolPublished sampleVolPublished
      (RegStep.unpublishDelete _ "pvc-2") rfl (by decide) (by decide)⟩

/-- C5: At-most-one repair per volume.  (i) Along every execution of the
repair protocol from the initial empty state, each volume name has at
most one in-flight repair task.  (ii) A tick spawns a task only for a
name absent from `ReqMountList` at spawn time and present afterwards,
and (iii) never spawns the same name twice in one tick — together the
image of `RepairStep.spawn`'s guard.  (iv) The repair worker removes
its volume's name from `ReqMountList` on every exit path, success or
failure — `RepairStep.finish`. -/
theorem at_most_one_repair :
    (∀ s : RepairSystem, Relation.ReflTransGen RepairStep ⟨[], []⟩ s →
      ∀ id, s.inflight.count id ≤ 1) ∧
    (∀ (list : List MountPoint) (s : DriverState) (r : RemountRequest),
      r ∈ (MonitorMountsTick list s).2 →
      r.vol.name ∉ s.reqMountList ∧
        r.vol.name ∈ (MonitorMountsTick list s).1.reqMountList) ∧
    (∀ (list : List MountPoint) (s : DriverState),
      ((MonitorMountsTick list s).2.map (fun r => r.vol.name)).Nodup) ∧
    (∀ (env : RemountEnv) (existsInTable : Bool) (vol : CSIVolume)
        (mountPoint : Option MountPoint) (desiredMountOpt : String)
        (s : DriverState),
      vol.name ∉
        (RemountVolume env existsInTable vol mountPoint desiredMountOpt s).1.reqMountList) := by
  refine ⟨?_, ?_, ?_, ?_⟩
  · intro s hreach id
    exact List.nodup_iff_count_le_one.mp (repairInv_reachable s hreach).1 id
  · intro list s r hr
    have h := (monitorLoop_spec list s.volumes s.reqMountList).2.1
    rcases hloop : monitorLoop list s.volumes s.reqMountList with ⟨req', spawns⟩
    rw [hloop] at h
    simp only [MonitorMountsTick, hloop] at hr ⊢
    exact ⟨(h r hr).2.1, (h r hr).2.2⟩
  · intro list s
    have h := (monitorLoop_spec list s.volumes s.reqMountList).2.2
    rcases hloop : monitorLoop list s.volumes s.reqMountList with ⟨req', spawns⟩
    rw [hloop] at h
    simp only [MonitorMountsTick, hloop]
    exact h
  · intro env existsInTable vol mountPoint desiredMountOpt s
    cases existsInTable with
    | false =>
        cases h : env.attachAndMountDisk <;>
          simp [RemountVolume, h, List.mem_filter]
    | true =>
        cases h : env.mountResult <;>
          simp [RemountVolume, h, List.mem_filter]

/-- Witness for C5: one spawn step from the initial state yields a
single in-flight task for that volume. -/
theorem at_most_one_repair_witness :
    (⟨["pvc-1"], ["pvc-1"]⟩ : RepairSystem).inflight.count "pvc-1" ≤ 1 :=
  at_most_one_repair.1 ⟨["pvc-1"], ["pvc-1"]⟩
    (Relation.ReflTransGen.single
      (RepairStep.spawn ⟨[], []⟩ "pvc-1" (by simp)))
    "pvc-1"

/-- C6 counterexample: `WaitForVolumeToBeReady` does not fail after
`R = 6` non-ready status attempts — after six `Offline` reports it
issues a seventh query (the initial query plus six retries, since the
Go loop errors only once `retries >= VolumeWaitRetryCount` on the
query after the sixth sleep) and succeeds if that one is `Healthy`. -/
theorem waitReady_not_bounded_by_six :
    (∀ i, i < VolumeWaitRetryCount → readyOracleSix i = .ok "Offline") ∧
    WaitForVolumeToBeReady readyOracleSix = .ok () := by
  constructor
  · decide
  · decide

/-- C6 amended: `WaitForVolumeToBeReady` succeeds when a status query
within the budget of 7 queries (initial query + `R = 6` retries spaced
`T = 2` s) reports `Healthy` or `Degraded`, and fails with the
not-ready error after 7 consecutive non-ready reports;
`WaitForVolumeToBeReachable` fails after exactly `R = 6` failed dial
attempts and succeeds if any dial within that bound succeeds (in
particular one attempt short of the bound). -/
theorem bounded_readiness_probes :
    (∀ oracle : Nat → Except String String,
      (∀ i, i ≤ VolumeWaitRetryCount → ∃ st, oracle i = .ok st ∧
        st ≠ "Healthy" ∧ st ≠ "Degraded") →
      WaitForVolumeToBeReady oracle = .error errNotReady) ∧
    (∀ (oracle : Nat → Except String String) (k : Nat),
      k ≤ VolumeWaitRetryCount →
      (∀ i, i < k → ∃ st, oracle i = .ok st ∧ st ≠ "Healthy" ∧ st ≠ "Degraded") →
      (∃ st, oracle k = .ok st ∧ (st = "Healthy" ∨ st = "Degraded")) →
      WaitForVolumeToBeReady oracle = .ok ()) ∧
    (∀ dial : Nat → Bool,
      (∀ i, i < VolumeWaitRetryCount → dial i = false) →
      WaitForVolumeToBeReachable dial = .error errUnreachable) ∧
    (∀ (dial : Nat → Bool) (k : Nat),
      k < VolumeWaitRetryCount → dial k = true →
      WaitForVolumeToBeReachable dial = .ok ()) := by
  refine ⟨?_, ?_, ?_, ?_⟩
  · intro oracle h
    exact waitReadyAux_fail oracle VolumeWaitRetryCount 0
      (fun i hi => by simpa using h i hi)
  · intro oracle k hk hbefore hready
    exact waitReadyAux_succeed oracle VolumeWaitRetryCount 0 k hk
      (fun i hi => by simpa using hbefore i hi) (by simpa using hready)
  · intro dial h
    exact waitReachAux_fail dial (VolumeWaitRetryCount - 1) 0
      (fun i hi => by
        have hlt : i < VolumeWaitRetryCount := by
          simp only [VolumeWaitRetryCount] at hi ⊢
          omega
        simpa using h i hlt)
  · intro dial k hk hsucc
    exact waitReachAux_succeed dial (VolumeWaitRetryCount - 1) 0 k
      (by omega) (by simpa using hsucc)

/-- Witness for the amended C6: a never-ready oracle fails, a dead
portal fails, and a portal that answers only on the last in-bound dial
succeeds. -/
theorem bounded_readiness_probes_witness :
    WaitForVolumeToBeReady (fun _ => .ok "Offline") = .error errNotReady ∧
    WaitForVolumeToBeReachable dialOracleDown = .error errUnreachable ∧
    WaitForVolumeToBeReachable dialOracleLast = .ok () :=
  ⟨bounded_readiness_probes.1 (fun _ => .ok "Offline")
      (fun i _ => ⟨"Offline", rfl, by decide, by decide⟩),
    bounded_readiness_probes.2.2.1 dialOracleDown (fun i _ => rfl),
    bounded_readiness_probes.2.2.2 dialOracleLast 5 (by decide) (by decide)⟩

/-- C10: an error from the status oracle inside `WaitForVolumeToBeReady`
is returned immediately — the result is fixed by the first query alone,
with no sleep and no retry consumed (the theorem holds for every oracle
agreeing on query 0, whatever the later queries would return) — and
`NodePublishVolume` consequently fails fast with `Internal` carrying
that error, before touching the registry. -/
theorem status_error_fails_fast :
    (∀ (oracle : Nat → Except String String) (e : String),
      oracle 0 = .error e → WaitForVolumeToBeReady oracle = .error e) ∧
    (∀ (env : PublishEnv) (req : PublishRequest)
        (volumes volumesAfterSleep : Registry) (vol : CSIVolume) (e : String),
      req.hasVolumeCapability = true →
      req.volumeID ≠ "" →
      GetVolumeDetails env.fetchPV req.volumeID req.targetPath
        req.readOnly req.mountFlags = .ok vol →
      env.getVolStatus 0 = .error e →
      NodePublishVolume env req volumes volumesAfterSleep =
        ⟨.error ⟨.internal, e⟩, volumes, []⟩) := by
  constructor
  · intro oracle e h
    exact waitReadyAux_error oracle VolumeWaitRetryCount 0 e h
  · intro env req volumes volumesAfterSleep vol e hcap hid hdet herr
    have hready : WaitForVolumeToBeReady env.getVolStatus = .error e :=
      waitReadyAux_error env.getVolStatus VolumeWaitRetryCount 0 e herr
    simp [NodePublishVolume, hcap, hid, hdet, hready]

/-- Witness for C10 at a concrete erroring oracle and environment. -/
theorem status_error_fails_fast_witness :
    WaitForVolumeToBeReady readyOracleErr = .error "connection refused" ∧
    NodePublishVolume envStatusErr sampleReq [] [] =
      ⟨.error ⟨.internal, "connection refused"⟩, [], []⟩ :=
  ⟨status_error_fails_fast.1 readyOracleErr "connection refused" rfl,
    status_error_fails_fast.2 envStatusErr sampleReq [] [] sampleVolPending
      "connection refused" rfl (by decide) (by decide) rfl⟩

/-- C9 counterexample: the publish whose attach fails returns an error
with the registry changed — the entry inserted earlier in the call is
left in place — so "the registry is unchanged on every error return"
is false. -/
theorem registry_changed_on_error_return :
    (NodePublishVolume envAttachFails sampleReq [] []).result =
      .error ⟨.internal, "iscsiadm: login failed"⟩ ∧
    (NodePublishVolume envAttachFails sampleReq [] []).volumes ≠ [] := by
  constructor
  · decide
  · decide

/-- On an error result, the fresh-publish path leaves the registry it
entered with either untouched (CR-handover or CR-claim failure) or with
exactly the new record inserted, still carrying `devicePath = ""`
(chmod or attach failure). -/
theorem publishFresh_error_volumes_shape (env : PublishEnv) (id : String)
    (vol : CSIVolume) (reg : Registry) (e : GrpcErr)
    (hvdp : vol.devicePath = "")
    (h : (publishFresh env id vol reg).result = .error e) :
    (publishFresh env id vol reg).volumes = reg ∨
    ∃ v, v.devicePath = "" ∧
      (publishFresh env id vol reg).volumes = regPut reg id v := by
  cases h1 : env.deleteOldCSIVolumeCR with
  | error e1 => left; simp [publishFresh, h1]
  | ok u1 =>
    cases h2 : env.createCSIVolumeCR with
    | error e2 => left; simp [publishFresh, h1, h2]
    | ok u2 =>
      cases h3 : env.chmodMountPath with
      | error e3 =>
          right
          exact ⟨vol, hvdp, by simp [publishFresh, h1, h2, h3]⟩
      | ok u3 =>
        cases h4 : env.attachAndMountDisk with
        | error e4 =>
            right
            exact ⟨vol, hvdp, by simp [publishFresh, h1, h2, h3, h4]⟩
        | ok d =>
            exfalso
            simp [publishFresh, h1, h2, h3, h4] at h

/-- C9 amended: on an error return the registry is not arbitrary but is
mutated in at most the one way the failing path had already performed
before the error: `NodeUnpublishVolume` leaves it unchanged (validation,
absent record) or with the record removed (teardown / CR-delete
failure); `NodePublishVolume` leaves it as one of the two snapshots it
read (unchanged for validation, pre-step and in-progress errors) or
with the new record inserted with `devicePath = ""` (chmod / attach
failure).  No error path ever installs a record with a non-empty
`devicePath`. -/
theorem registry_error_mutation_bounded :
    (∀ (env : UnpublishEnv) (req : UnpublishRequest) (volumes : Registry)
        (e : GrpcErr),
      (NodeUnpublishVolume env req volumes).result = .error e →
      (NodeUnpublishVolume env req volumes).volumes = volumes ∨
      (NodeUnpublishVolume env req volumes).volumes =
        regDel volumes req.volumeID) ∧
    (∀ (env : PublishEnv) (req : PublishRequest)
        (volumes volumesAfterSleep : Registry) (e : GrpcErr),
      (NodePublishVolume env req volumes volumesAfterSleep).result = .error e →
      (NodePublishVolume env req volumes volumesAfterSleep).volumes = volumes ∨
      (NodePublishVolume env req volumes volumesAfterSleep).volumes =
        volumesAfterSleep ∨
      ∃ v, v.devicePath = "" ∧
        ((NodePublishVolume env req volumes volumesAfterSleep).volumes =
            regPut volumes req.volumeID v ∨
          (NodePublishVolume env req volumes volumesAfterSleep).volumes =
            regPut volumesAfterSleep req.volumeID v)) := by
  constructor
  · intro env req volumes e h
    by_cases h1 : req.volumeID = ""
    · left; simp [NodeUnpublishVolume, h1]
    · by_cases h2 : req.targetPath = ""
      · left; simp [NodeUnpublishVolume, h1, h2]
      · cases hget : regGet volumes req.volumeID with
        | none => left; simp [NodeUnpublishVolume, h1, h2, hget]
        | some vol =>
            right
            cases hun : env.unmountAndDetachDisk with
            | error e' => simp [NodeUnpublishVolume, h1, h2, hget, hun]
            | ok u =>
                cases hdel : env.deleteCSIVolumeCR with
                | error e' => simp [NodeUnpublishVolume, h1, h2, hget, hun, hdel]
                | ok u' => simp [NodeUnpublishVolume, h1, h2, hget, hun, hdel]
  · intro env req volumes volumesAfterSleep e h
    by_cases hcap : req.hasVolumeCapability = false
    · left; simp [NodePublishVolume, hcap]
    · rw [Bool.not_eq_false] at hcap
      by_cases hid : req.volumeID = ""
      · left; simp [NodePublishVolume, hcap, hid]
      · cases hdet : GetVolumeDetails env.fetchPV req.volumeID req.targetPath
            req.readOnly req.mountFlags with
        | error e' => left; simp [NodePublishVolume, hcap, hid, hdet]
        | ok vol =>
          have hvdp : vol.devicePath = "" := GetVolumeDetails_devicePath hdet
          cases hready : WaitForVolumeToBeReady env.getVolStatus with
          | error e' => left; simp [NodePublishVolume, hcap, hid, hdet, hready]
          | ok u =>
            cases hreach : WaitForVolumeToBeReachable env.dial with
            | error e' =>
                left; simp [NodePublishVolume, hcap, hid, hdet, hready, hreach]
            | ok u' =>
              cases hget : regGet volumes req.volumeID with
              | some info =>
                  by_cases hdp : info.devicePath = ""
                  · cases hget2 : regGet volumesAfterSleep req.volumeID with
                    | some info2 =>
                        right; left
                        by_cases hdp2 : info2.devicePath = "" <;>
                          simp [NodePublishVolume, hcap, hid, hdet, hready,
                            hreach, hget, hdp, hget2, hdp2]
                    | none =>
                        have hred : NodePublishVolume env req volumes
                            volumesAfterSleep =
                            publishFresh env req.volumeID vol volumesAfterSleep := by
                          simp [NodePublishVolume, hcap, hid, hdet, hready,
                            hreach, hget, hdp, hget2]
                        rw [hred] at h ⊢
                        rcases publishFresh_error_volumes_shape env req.volumeID
                            vol volumesAfterSleep e hvdp h with hsh | ⟨v, hv, hsh⟩
                        · right; left; exact hsh
                        · right; right; exact ⟨v, hv, Or.inr hsh⟩
                  · exfalso
                    simp [NodePublishVolume, hcap, hid, hdet, hready, hreach,
                      hget, hdp] at h
              | none =>
                  have hred : NodePublishVolume env req volumes volumesAfterSleep =
                      publishFresh env req.volumeID vol volumes := by
                    simp [NodePublishVolume, hcap, hid, hdet, hready, hreach, hget]
                  rw [hred] at h ⊢
                  rcases publishFresh_error_volumes_shape env req.volumeID
                      vol volumes e hvdp h with hsh | ⟨v, hv, hsh⟩
                  · left; exact hsh
                  · right; right; exact ⟨v, hv, Or.inl hsh⟩

/-- Witness for the amended C9 at a concrete failing teardown. -/
theorem registry_error_mutation_bounded_witness :
    (NodeUnpublishVolume unpubEnvTeardownFails sampleUnpubReq
        [("pvc-1", sampleVolPublished)]).volumes =
      [("pvc-1", sampleVolPublished)] ∨
    (NodeUnpublishVolume unpubEnvTeardownFails sampleUnpubReq
        [("pvc-1", sampleVolPublished)]).volumes =
      regDel [("pvc-1", sampleVolPublished)] "pvc-1" :=
  registry_error_mutation_bounded.1 unpubEnvTeardownFails sampleUnpubReq
    [("pvc-1", sampleVolPublished)] ⟨.internal, "umount: target is busy"⟩
    (by decide)
